import Mathlib

/-!
Verification of the parametric-insurance claims pipeline.

This file gives a shallow embedding, in Lean 4, of the parts of the
repository that the spec's checkable sentences are about:

* `shared/models.py` — the data model (`Location`, `OutageEvent`, `Policy`,
  claim/payout records), its `to_dict` / `from_dict` serialization and the
  id-generation helpers (`create_claim_id`, `create_payout_id`);
* the two deterministic decision engines —
  `rule_based_validation` / `calculate_weather_factor` from
  `fabric/notebooks/parametric_insurance_unified_demo.py` and
  `fallback_validation` from `functions/ThresholdEvaluator/__init__.py` —
  together with `Policy.calculate_payout`;
* the AI-advisor wrappers (`foundry_agent_validation`, `call_foundry_agent`)
  whose failure branches fall back to the deterministic engines;
* the event-publishing clients (`shared/eventgrid_client.py` and the
  notebook-embedded `NotebookEventGridClient`) and their audit behaviour;
* the per-outage matching step of `functions/OutageMonitor/__init__.py`;
* the guard clauses of `functions/PayoutProcessor/__init__.py`.

Python numbers are modelled as `ℚ` (exact arithmetic in place of IEEE
floats), Python `None`-able values as `Option`, fallible operations as
`Option`/`Except`, and external effects (HTTP send, SQL insert, the LLM
call) as explicit outcome parameters or state threading.  Python
`datetime.utcnow()` values are passed in explicitly wherever the source
reads the wall clock.
-/

namespace ParametricInsurance

/-! ## Decimal rendering and parsing of natural numbers

Python renders datetimes with `datetime.isoformat` / `strftime` and parses
them back with `datetime.fromisoformat`.  We model the decimal-digit
rendering (`str(n)` with zero padding, as `%04d`-style formatting does)
and parsing on `List Char`, and prove the roundtrip. -/

/-- One step of decimal accumulation while reading digit characters. -/
def valStep (a : Nat) (c : Char) : Nat := a * 10 + (c.toNat - 48)

/-- Fuelled most-significant-first decimal rendering (accumulator holds the
already-rendered low digits).  Mirrors how CPython renders `str(n)`. -/
def natCharsAux : Nat → Nat → List Char → List Char
  | 0, _, acc => acc
  | fuel + 1, n, acc =>
    if n < 10 then Nat.digitChar n :: acc
    else natCharsAux fuel (n / 10) (Nat.digitChar (n % 10) :: acc)

/-- The decimal digits of `n`, most significant first; `natChars 0 = ['0']`. -/
def natChars (n : Nat) : List Char := natCharsAux (n + 1) n []

/-- Zero-pad the decimal rendering of `n` to width `w` (Python `"%0Nd"`). -/
def padDigits (w n : Nat) : List Char :=
  List.replicate (w - (natChars n).length) '0' ++ natChars n

/-- Read a maximal run of decimal digit characters, returning the value read
so far and the unconsumed remainder (the core of `int()`-style parsing). -/
def readNatAux : Nat → List Char → Nat × List Char
  | acc, [] => (acc, [])
  | acc, c :: cs => if c.isDigit then readNatAux (valStep acc c) cs else (acc, c :: cs)

theorem digitChar_toNat (d : Nat) (h : d < 10) : (Nat.digitChar d).toNat = d + 48 := by
  interval_cases d <;> rfl

theorem digitChar_isDigit (d : Nat) (h : d < 10) : (Nat.digitChar d).isDigit = true := by
  interval_cases d <;> rfl

theorem natCharsAux_append (fuel : Nat) : ∀ n acc,
    natCharsAux fuel n acc = natCharsAux fuel n [] ++ acc := by
  induction fuel with
  | zero => intro n acc; simp [natCharsAux]
  | succ fuel ih =>
    intro n acc
    by_cases h : n < 10
    · simp [natCharsAux, h]
    · simp only [natCharsAux, if_neg h]
      rw [ih (n / 10) (Nat.digitChar (n % 10) :: acc),
        ih (n / 10) (Nat.digitChar (n % 10) :: [])]
      simp

theorem natCharsAux_fuel (f1 : Nat) : ∀ f2 n acc, n < 10 ^ (f1 + 1) → n < 10 ^ (f2 + 1) →
    natCharsAux (f1 + 1) n acc = natCharsAux (f2 + 1) n acc := by
  induction f1 with
  | zero =>
    intro f2 n acc h1 _
    have hn : n < 10 := by simpa using h1
    cases f2 <;> simp [natCharsAux, hn]
  | succ f1 ih =>
    intro f2 n acc h1 h2
    by_cases h : n < 10
    · cases f2 <;> simp [natCharsAux, h]
    · cases f2 with
      | zero =>
        exfalso
        have : n < 10 := by simpa using h2
        exact h this
      | succ f2 =>
        simp only [natCharsAux, if_neg h]
        apply ih
        · rw [Nat.div_lt_iff_lt_mul (by norm_num)]
          calc n < 10 ^ (f1 + 1 + 1) := h1
            _ = 10 ^ (f1 + 1) * 10 := by ring
        · rw [Nat.div_lt_iff_lt_mul (by norm_num)]
          calc n < 10 ^ (f2 + 1 + 1) := h2
            _ = 10 ^ (f2 + 1) * 10 := by ring

theorem lt_ten_pow_self (n : Nat) : n < 10 ^ n :=
  Nat.lt_pow_self (by norm_num) n

theorem natChars_small (n : Nat) (h : n < 10) : natChars n = [Nat.digitChar n] := by
  simp [natChars, natCharsAux, h]

theorem natChars_step (n : Nat) (h : ¬ n < 10) :
    natChars n = natChars (n / 10) ++ [Nat.digitChar (n % 10)] := by
  have hdiv : n / 10 < 10 ^ (n / 10 + 1) := lt_ten_pow_self _ |>.trans
    (Nat.pow_lt_pow_right (by norm_num) (Nat.lt_succ_self _))
  have hdiv' : n / 10 < 10 ^ n := by
    have : n / 10 < n := Nat.div_lt_self (by omega) (by norm_num)
    exact this.trans (lt_ten_pow_self n)
  calc natChars n = natCharsAux (n + 1) n [] := rfl
    _ = natCharsAux n (n / 10) [Nat.digitChar (n % 10)] := by
        cases n with
        | zero => omega
        | succ m => simp [natCharsAux, h]
    _ = natCharsAux n (n / 10) [] ++ [Nat.digitChar (n % 10)] := natCharsAux_append ..
    _ = natCharsAux (n / 10 + 1) (n / 10) [] ++ [Nat.digitChar (n % 10)] := by
        cases n with
        | zero => omega
        | succ m =>
          rw [natCharsAux_fuel m ((m + 1) / 10) ((m + 1) / 10) []]
          · exact hdiv'
          · exact hdiv
    _ = natChars (n / 10) ++ [Nat.digitChar (n % 10)] := rfl

theorem natChars_digits (n : Nat) : ∀ c ∈ natChars n, c.isDigit = true := by
  induction n using Nat.strong_induction_on with
  | _ n ih =>
    by_cases h : n < 10
    · rw [natChars_small n h]
      intro c hc
      simp at hc
      subst hc
      exact digitChar_isDigit n h
    · rw [natChars_step n h]
      intro c hc
      rcases List.mem_append.mp hc with hc | hc
      · exact ih (n / 10) (Nat.div_lt_self (by omega) (by norm_num)) c hc
      · simp at hc
        subst hc
        exact digitChar_isDigit _ (Nat.mod_lt _ (by norm_num))

theorem natChars_foldl (n : Nat) : ∀ a : Nat,
    (natChars n).foldl valStep a = a * 10 ^ (natChars n).length + n := by
  induction n using Nat.strong_induction_on with
  | _ n ih =>
    intro a
    by_cases h : n < 10
    · rw [natChars_small n h]
      simp [valStep, digitChar_toNat n h]
    · rw [natChars_step n h]
      rw [List.foldl_append, ih (n / 10) (Nat.div_lt_self (by omega) (by norm_num))]
      simp only [List.foldl_cons, List.foldl_nil, List.length_append, List.length_singleton]
      rw [valStep, digitChar_toNat _ (Nat.mod_lt _ (by norm_num))]
      have : a * 10 ^ ((natChars (n / 10)).length + 1)
          = a * 10 ^ (natChars (n / 10)).length * 10 := by ring
      rw [this]
      omega

theorem padDigits_digits (w n : Nat) : ∀ c ∈ padDigits w n, c.isDigit = true := by
  intro c hc
  rcases List.mem_append.mp hc with hc | hc
  · rw [List.eq_of_mem_replicate hc]; rfl
  · exact natChars_digits n c hc

theorem padDigits_foldl (w n : Nat) : (padDigits w n).foldl valStep 0 = n := by
  rw [padDigits, List.foldl_append]
  have hz : ∀ k : Nat, (List.replicate k '0').foldl valStep 0 = 0 := by
    intro k
    induction k with
    | zero => rfl
    | succ k ih => simpa [List.replicate_succ, valStep] using ih
  rw [hz, natChars_foldl, Nat.zero_mul, Nat.zero_add]

/-- `readNatAux` consumes exactly an all-digit prefix when the remainder
starts with a non-digit (or is empty). -/
theorem readNatAux_append (ds : List Char) (hd : ∀ c ∈ ds, c.isDigit = true) :
    ∀ acc rest, (∀ c, rest.head? = some c → c.isDigit = false) →
    readNatAux acc (ds ++ rest) = (ds.foldl valStep acc, rest) := by
  induction ds with
  | nil =>
    intro acc rest hrest
    cases rest with
    | nil => rfl
    | cons c cs => simp [readNatAux, hrest c rfl]
  | cons c cs ih =>
    intro acc rest hrest
    have hc : c.isDigit = true := hd c (List.mem_cons_self ..)
    simp only [List.cons_append, readNatAux, hc, if_true, List.foldl_cons]
    exact ih (fun x hx => hd x (List.mem_cons_of_mem _ hx)) _ rest hrest

theorem readNatAux_pad (w n : Nat) (rest : List Char)
    (hrest : ∀ c, rest.head? = some c → c.isDigit = false) :
    readNatAux 0 (padDigits w n ++ rest) = (n, rest) := by
  rw [readNatAux_append (padDigits w n) (padDigits_digits w n) 0 rest hrest,
    padDigits_foldl]

theorem readNatAux_pad_sep (w n : Nat) (c : Char) (rest : List Char)
    (hc : c.isDigit = false) :
    readNatAux 0 (padDigits w n ++ c :: rest) = (n, c :: rest) :=
  readNatAux_pad w n (c :: rest) (fun x hx => by cases hx; exact hc)

theorem readNatAux_pad_nil (w n : Nat) :
    readNatAux 0 (padDigits w n) = (n, []) := by
  have := readNatAux_pad w n [] (fun c hc => by cases hc)
  simpa using this

/-! ## Datetimes

A naive `datetime.datetime` value (the code creates them with
`datetime.utcnow()` and `datetime.fromisoformat`).  `isoformat` renders
`YYYY-MM-DDTHH:MM:SS[.ffffff]`, with the microseconds part present exactly
when `microsecond` is nonzero (CPython `timespec='auto'` behaviour);
`fromisoformat` parses that format back. -/

structure DateTime where
  year : Nat
  month : Nat
  day : Nat
  hour : Nat
  minute : Nat
  second : Nat
  microsecond : Nat
deriving DecidableEq, Repr

namespace DateTime

/-- Character-level rendering of `datetime.isoformat()`. -/
def isoChars (t : DateTime) : List Char :=
  padDigits 4 t.year ++ '-' :: (padDigits 2 t.month ++ '-' :: (padDigits 2 t.day ++
    'T' :: (padDigits 2 t.hour ++ ':' :: (padDigits 2 t.minute ++ ':' :: (padDigits 2 t.second ++
      (if t.microsecond = 0 then [] else '.' :: padDigits 6 t.microsecond))))))

/-- `datetime.isoformat()`. -/
def isoformat (t : DateTime) : String := String.mk t.isoChars

/-- `datetime.strftime("%Y%m%d%H%M%S")` — the timestamp format used by the
id-generation helpers in `shared/models.py`. -/
def strftime14 (t : DateTime) : String :=
  String.mk (padDigits 4 t.year ++ padDigits 2 t.month ++ padDigits 2 t.day ++
    padDigits 2 t.hour ++ padDigits 2 t.minute ++ padDigits 2 t.second)

end DateTime

/-- Character-level parser for the `isoformat` output above, modelling
`datetime.fromisoformat`; `none` models a raised `ValueError`. -/
def parseIsoChars (l : List Char) : Option DateTime :=
  match readNatAux 0 l with
  | (y, '-' :: r) =>
    match readNatAux 0 r with
    | (mo, '-' :: r) =>
      match readNatAux 0 r with
      | (d, 'T' :: r) =>
        match readNatAux 0 r with
        | (h, ':' :: r) =>
          match readNatAux 0 r with
          | (mi, ':' :: r) =>
            match readNatAux 0 r with
            | (s, []) => some ⟨y, mo, d, h, mi, s, 0⟩
            | (s, '.' :: r) =>
              match readNatAux 0 r with
              | (us, []) => some ⟨y, mo, d, h, mi, s, us⟩
              | _ => none
            | _ => none
          | _ => none
        | _ => none
      | _ => none
    | _ => none
  | _ => none

/-- `datetime.fromisoformat` on strings. -/
def fromisoformat (s : String) : Option DateTime := parseIsoChars s.data

/-- `datetime.fromisoformat(t.isoformat())` returns `t` — the stdlib
roundtrip the `OutageEvent` serialization relies on. -/
theorem readNatAux_pad_dash (w n : Nat) (r : List Char) :
    readNatAux 0 (padDigits w n ++ '-' :: r) = (n, '-' :: r) :=
  readNatAux_pad_sep w n '-' r (by decide)

theorem readNatAux_pad_colon (w n : Nat) (r : List Char) :
    readNatAux 0 (padDigits w n ++ ':' :: r) = (n, ':' :: r) :=
  readNatAux_pad_sep w n ':' r (by decide)

theorem readNatAux_pad_tsep (w n : Nat) (r : List Char) :
    readNatAux 0 (padDigits w n ++ 'T' :: r) = (n, 'T' :: r) :=
  readNatAux_pad_sep w n 'T' r (by decide)

theorem readNatAux_pad_dot (w n : Nat) (r : List Char) :
    readNatAux 0 (padDigits w n ++ '.' :: r) = (n, '.' :: r) :=
  readNatAux_pad_sep w n '.' r (by decide)

/-- `datetime.fromisoformat(t.isoformat())` returns `t` — the stdlib
roundtrip the `OutageEvent` serialization relies on. -/
theorem fromisoformat_isoformat (t : DateTime) : fromisoformat t.isoformat = some t := by
  obtain ⟨y, mo, d, h, mi, s, us⟩ := t
  rw [fromisoformat, DateTime.isoformat]
  show parseIsoChars (DateTime.isoChars ⟨y, mo, d, h, mi, s, us⟩) = _
  rw [DateTime.isoChars]
  by_cases hus : us = 0
  · subst hus
    simp only [if_pos, List.append_nil, parseIsoChars, readNatAux_pad_dash,
      readNatAux_pad_colon, readNatAux_pad_tsep, readNatAux_pad_nil]
  · simp only [if_neg hus, parseIsoChars, readNatAux_pad_dash,
      readNatAux_pad_colon, readNatAux_pad_tsep, readNatAux_pad_dot,
      readNatAux_pad_nil]

/-! ## Data model (`shared/models.py`) -/

/-- `Location` dataclass. -/
structure Location where
  latitude : ℚ
  longitude : ℚ
  zip_code : String
  address : Option String := none
  city : Option String := none
  state : Option String := none
deriving DecidableEq, Repr

/-- The dictionary produced by `dataclasses.asdict` on a `Location`. -/
structure LocationDict where
  latitude : ℚ
  longitude : ℚ
  zip_code : String
  address : Option String
  city : Option String
  state : Option String
deriving DecidableEq, Repr

/-- `Location.to_dict` — `asdict(self)`. -/
def Location.to_dict (l : Location) : LocationDict :=
  ⟨l.latitude, l.longitude, l.zip_code, l.address, l.city, l.state⟩

/-- `Location.from_dict` — `cls(**data)`. -/
def Location.from_dict (d : LocationDict) : Location :=
  ⟨d.latitude, d.longitude, d.zip_code, d.address, d.city, d.state⟩

/-- `OutageStatus` enumeration. -/
inductive OutageStatus where
  | active
  | resolved
  | investigating
deriving DecidableEq, Repr

/-- The `.value` string of each `OutageStatus` member. -/
def OutageStatus.value : OutageStatus → String
  | .active => "active"
  | .resolved => "resolved"
  | .investigating => "investigating"

/-- `OutageStatus(s)` — enum lookup by value; `none` models the
`ValueError` raised on an unknown value. -/
def OutageStatus.ofValue (s : String) : Option OutageStatus :=
  if s = "active" then some .active
  else if s = "resolved" then some .resolved
  else if s = "investigating" then some .investigating
  else none

/-- `OutageEvent` dataclass. -/
structure OutageEvent where
  event_id : String
  utility_name : String
  location : Location
  affected_customers : Int
  outage_start : DateTime
  outage_end : Option DateTime
  duration_minutes : Option Int
  status : OutageStatus
  cause : Option String := none
  reported_cause : Option String := none
  data_source : String := "poweroutage.us"
  last_updated : Option DateTime := none
deriving DecidableEq, Repr

/-- The dictionary produced by `OutageEvent.to_dict`: datetimes rendered
with `isoformat`, the status replaced by its `.value`, the location by its
own dict. -/
structure OutageEventDict where
  event_id : String
  utility_name : String
  location : LocationDict
  affected_customers : Int
  outage_start : String
  outage_end : Option String
  duration_minutes : Option Int
  status : String
  cause : Option String
  reported_cause : Option String
  data_source : String
  last_updated : Option String
deriving DecidableEq, Repr

/-- `OutageEvent.to_dict`. -/
def OutageEvent.to_dict (e : OutageEvent) : OutageEventDict where
  event_id := e.event_id
  utility_name := e.utility_name
  location := e.location.to_dict
  affected_customers := e.affected_customers
  outage_start := e.outage_start.isoformat
  outage_end := e.outage_end.map DateTime.isoformat
  duration_minutes := e.duration_minutes
  status := e.status.value
  cause := e.cause
  reported_cause := e.reported_cause
  data_source := e.data_source
  last_updated := e.last_updated.map DateTime.isoformat

/-- `OutageEvent.from_dict` — parses the datetime strings back
(`fromisoformat`), looks the status up in the enum, rebuilds the location;
`none` models a raised exception.  The source guards the optional datetime
fields with truthiness (`if data.get('outage_end'):`); an empty string
would be kept as-is there, producing an object with a `str` in a datetime
field, which this typed model renders as a failure. -/
def OutageEvent.from_dict (d : OutageEventDict) : Option OutageEvent := do
  let os ← fromisoformat d.outage_start
  let oe ← match d.outage_end with
    | none => some none
    | some s => (fromisoformat s).map some
  let lu ← match d.last_updated with
    | none => some none
    | some s => (fromisoformat s).map some
  let st ← OutageStatus.ofValue d.status
  some ⟨d.event_id, d.utility_name, Location.from_dict d.location, d.affected_customers,
    os, oe, d.duration_minutes, st, d.cause, d.reported_cause, d.data_source, lu⟩

theorem OutageStatus.ofValue_value (st : OutageStatus) :
    OutageStatus.ofValue st.value = some st := by
  cases st <;> rfl

theorem Location.from_dict_to_dict (l : Location) :
    Location.from_dict l.to_dict = l := rfl

/-! ## Id-generation helpers (`shared/models.py`) -/

/-- `create_claim_id(policy_id, event_id)`.  The `now` parameter models the
`datetime.utcnow()` call inside the function.  Exactly as in the source,
the `event_id` argument is accepted but never used: the generated id is
`CLM-{policy_id}-{timestamp}`. -/
def create_claim_id (policy_id : String) (event_id : String) (now : DateTime) : String :=
  "CLM-" ++ policy_id ++ "-" ++ now.strftime14

/-- `create_payout_id(claim_id)` — `PAY-{claim_id}-{timestamp}`. -/
def create_payout_id (claim_id : String) (now : DateTime) : String :=
  "PAY-" ++ claim_id ++ "-" ++ now.strftime14

/-! ## Claims Decision Engine

Two deterministic rule engines exist in the source: `rule_based_validation`
(with `calculate_weather_factor`) in the unified-demo notebook, and
`fallback_validation` in the ThresholdEvaluator Azure Function.  Both
consume plain dictionaries; the fields each engine actually reads are
modelled below.  The human-readable `reasoning` and `evidence` entries of
the result (formatted display strings) are not modelled. -/

/-- The policy fields the decision engines read (`threshold_minutes`,
`hourly_rate`, `max_payout` of the `Policy` dataclass / policy dict). -/
structure Policy where
  threshold_minutes : ℚ
  hourly_rate : ℚ
  max_payout : ℚ
deriving DecidableEq, Repr

/-- `Policy.calculate_payout(duration_minutes, severity_multiplier)`. -/
def Policy.calculate_payout (p : Policy) (duration_minutes : ℚ)
    (severity_multiplier : ℚ := 1) : ℚ :=
  if duration_minutes ≤ p.threshold_minutes then 0
  else
    let hours_over_threshold := (duration_minutes - p.threshold_minutes) / 60
    let base_payout := hours_over_threshold * p.hourly_rate
    let adjusted_payout := base_payout * severity_multiplier
    min adjusted_payout p.max_payout

/-- Python `sub in s` substring test. -/
def pyIn (sub s : String) : Bool := decide (List.IsInfix sub.toList s.toList)

/-- The weather-dict fields the engines read. -/
structure WeatherDict where
  wind_speed_mph : Option ℚ := none
  wind_gust_mph : Option ℚ := none
  severe_weather_alert : Bool := false
  alert_type : Option String := none
deriving DecidableEq, Repr

/-- `calculate_weather_factor(weather)` from the unified-demo notebook.
`none` models both an absent and a falsy (empty) weather dict; `Option`
fields model `weather.get(...)`; `or 0` maps a missing wind value to `0`,
and `str(weather.get("alert_type",""))` is modelled by `getD ""`. -/
def calculate_weather_factor (weather : Option WeatherDict) : ℚ × String :=
  match weather with
  | none => (1, "unknown")
  | some w =>
    let wind := w.wind_speed_mph.getD 0
    let gust := w.wind_gust_mph.getD 0
    let ha := w.severe_weather_alert
    let at0 := w.alert_type.getD ""
    let mx := max wind gust
    if ha ∧ (pyIn "Severe" at0 ∨ pyIn "Hurricane" at0 ∨ mx > 55) then (1.5, "severe")
    else if ha ∨ mx > 40 then (1.2, "high")
    else if mx > 25 then (1.1, "medium")
    else (1, "low")

/-- Banker's rounding to an integer (ties to even), the rounding mode of
Python `round`. -/
def roundHalfEven (x : ℚ) : ℤ :=
  let f := ⌊x⌋
  let r := x - f
  if r < 1 / 2 then f
  else if r > 1 / 2 then f + 1
  else if f % 2 = 0 then f else f + 1

/-- Python `round(x, ndigits)`. -/
def pyRound (ndigits : Nat) (x : ℚ) : ℚ :=
  (roundHalfEven (x * 10 ^ ndigits) : ℚ) / 10 ^ ndigits

/-- The decision-engine verdict (the `ValidationResult` /
`AIValidationResult` fields carried into claims; display-only
`reasoning` / `evidence` strings omitted). -/
structure ValidationResult where
  decision : String
  confidence_score : ℚ
  payout_amount : ℚ
  severity_assessment : String
  weather_factor : ℚ
  fraud_signals : List String
deriving DecidableEq, Repr

/-- The outage-dict fields `rule_based_validation` reads
(`od_dict` in the notebook always carries `duration_minutes`). -/
structure NotebookOutage where
  duration_minutes : ℚ
  reported_cause : Option String := none
  affected_customers : ℚ := 0
deriving DecidableEq, Repr

/-- `rule_based_validation(policy, outage, weather)` from the unified-demo
notebook. -/
def rule_based_validation (policy : Policy) (outage : NotebookOutage)
    (weather : Option WeatherDict) : ValidationResult :=
  let dur := outage.duration_minutes
  let thr := policy.threshold_minutes
  let excess := dur - thr
  if excess ≤ 0 then
    { decision := "denied", confidence_score := 0.95, payout_amount := 0,
      severity_assessment := "none", weather_factor := 1, fraud_signals := [] }
  else
    let wf := (calculate_weather_factor weather).1
    let sev := (calculate_weather_factor weather).2
    let raw := excess / 60 * policy.hourly_rate * wf
    let final := min raw policy.max_payout
    let fraud := if outage.reported_cause = some "planned_maintenance"
      then ["planned_maintenance_not_covered"] else []
    let conf := min (0.92 + (if weather.isSome then 0.03 else 0)
      + (if outage.affected_customers > 5000 then 0.02 else 0)) 0.99
    let dec := if outage.reported_cause = some "planned_maintenance"
      then "denied" else "approved"
    { decision := dec, confidence_score := pyRound 4 conf,
      payout_amount := pyRound 2 final,
      severity_assessment := sev, weather_factor := wf, fraud_signals := fraud }

/-- The outage-dict fields `fallback_validation` reads.  `reported_cause`
is carried by the dict but — exactly as in the source — never read by this
engine. -/
structure FunctionOutage where
  duration_minutes : Option ℚ := none
  reported_cause : Option String := none
deriving DecidableEq, Repr

/-- `fallback_validation(policy, outage, weather)` from
`functions/ThresholdEvaluator/__init__.py`.  `elapsedMinutes` models
`(datetime.utcnow() - outage_start).total_seconds() / 60`, which the
source computes when `outage.get('duration_minutes')` is falsy — i.e.
absent, `None`, or `0`. -/
def fallback_validation (policy : Policy) (outage : FunctionOutage)
    (weather : Option WeatherDict) (elapsedMinutes : ℚ) : ValidationResult :=
  let duration := match outage.duration_minutes with
    | some d => if d = 0 then elapsedMinutes else d
    | none => elapsedMinutes
  let threshold := policy.threshold_minutes
  if duration ≤ threshold then
    { decision := "deny", confidence_score := 0.95, payout_amount := 0,
      severity_assessment := "low", weather_factor := 1, fraud_signals := [] }
  else
    let hours_over := (duration - threshold) / 60
    let base_payout := hours_over * policy.hourly_rate
    let sm : ℚ × String := match weather with
      | none => (1, "medium")
      | some w =>
        if w.severe_weather_alert then (1.5, "high")
        else if w.wind_speed_mph.getD 0 > 40 then (1.2, "high")
        else (1, "medium")
    let final_payout := min (base_payout * sm.1) policy.max_payout
    { decision := "approve", confidence_score := 0.85, payout_amount := final_payout,
      severity_assessment := sm.2, weather_factor := sm.1, fraud_signals := [] }

/-! ## AI Advisor wrappers -/

/-- Python truthiness of an optional string (`None` and `""` are falsy). -/
def pyTruthyStr : Option String → Bool
  | none => false
  | some s => !s.isEmpty

/-- The environment of one `foundry_agent_validation` call: whether the
`openai` SDK imports, the configured endpoint/key, and the outcome of the
chat-completion call plus JSON parse (`.error` models any raised
exception: transport error, timeout, or `json.loads` failure). -/
structure AdvisorEnv where
  sdkAvailable : Bool
  foundry_endpoint : Option String
  foundry_api_key : Option String
  callOutcome : Except String ValidationResult
deriving Repr

/-- `foundry_agent_validation(policy, outage, weather)` from the
unified-demo notebook: every failure branch returns
`rule_based_validation` on the same arguments. -/
def foundry_agent_validation (env : AdvisorEnv) (policy : Policy)
    (outage : NotebookOutage) (weather : Option WeatherDict) : ValidationResult :=
  if !env.sdkAvailable then rule_based_validation policy outage weather
  else if !(pyTruthyStr env.foundry_endpoint) || !(pyTruthyStr env.foundry_api_key) then
    rule_based_validation policy outage weather
  else
    match env.callOutcome with
    | .ok r => r
    | .error _ => rule_based_validation policy outage weather

/-- `call_foundry_agent` from `functions/ThresholdEvaluator/__init__.py`:
the whole agent call sits in one `try`, and any exception (import failure,
transport, parse) falls back to `fallback_validation`. -/
def call_foundry_agent (agentOutcome : Except String ValidationResult)
    (policy : Policy) (outage : FunctionOutage) (weather : Option WeatherDict)
    (elapsedMinutes : ℚ) : ValidationResult :=
  match agentOutcome with
  | .ok r => r
  | .error _ => fallback_validation policy outage weather elapsedMinutes

/-! ## Event publishing and the Audit Log -/

/-- One Audit Log row (`audit` dict of the notebook client). -/
structure AuditRecord where
  sequence : Nat
  event_id : String
  event_type : String
  subject : String
  event_time : String
  data_summary : String
  status : String
  error : Option String
deriving DecidableEq, Repr

namespace EventGridClient

/-- `EventGridClient.publish_event` from `shared/eventgrid_client.py`:
sends one event, returns `True` on success and `False` on any exception
(nothing propagates).  Alongside the boolean we record the list of audit
records the call writes — which in this client is empty: the failure is
only printed. -/
def publish_event (sendOutcome : Except String Unit) : Bool × List AuditRecord :=
  match sendOutcome with
  | .ok _ => (true, [])
  | .error _ => (false, [])

end EventGridClient

namespace NotebookEventGridClient

/-- The mutable state of a `NotebookEventGridClient` (`_event_counter`
and `audit_log`). -/
structure State where
  event_counter : Nat
  audit_log : List AuditRecord
deriving DecidableEq, Repr

/-- `NotebookEventGridClient.publish_event`: builds the event and the
audit record, posts it (`sendOutcome` is the outcome of `requests.post`
plus `raise_for_status`), appends exactly one audit record — `published`
on success, `failed` with the error text on failure — and returns the
boolean; `data_summary` is the `json.dumps(data)` text, truncated to 500
characters as in the source. -/
def publish_event (st : State) (event_type subject data_summary event_id event_time : String)
    (sendOutcome : Except String Unit) : Bool × State :=
  let counter := st.event_counter + 1
  let base : AuditRecord :=
    { sequence := counter, event_id := event_id, event_type := event_type,
      subject := subject, event_time := event_time,
      data_summary := data_summary.take 500, status := "pending", error := none }
  match sendOutcome with
  | .ok _ =>
    (true, { event_counter := counter,
             audit_log := st.audit_log ++ [{ base with status := "published" }] })
  | .error e =>
    (false, { event_counter := counter,
              audit_log := st.audit_log ++ [{ base with status := "failed", error := some e }] })

end NotebookEventGridClient

/-! ## Outage Monitor (`functions/OutageMonitor/__init__.py`) -/

/-- Python truthiness of an optional number (`None` and `0` are falsy). -/
def pyTruthyNum (v : Option ℚ) : Bool :=
  match v with
  | none => false
  | some x => decide (x ≠ 0)

/-- Deduplication by `policy_id` via
`{p['policy_id']: p for p in affected_policies + nearby_policies}` —
dict keys keep first-insertion order, so the published id list keeps the
first occurrence of each id. -/
def dedupIds (ids : List String) : List String :=
  ids.foldl (fun acc i => if i ∈ acc then acc else acc ++ [i]) []

/-- The per-outage body of `OutageMonitor.main`: given the policy ids
matching the outage's zip code exactly, the ids within the 10-mile radius
of its coordinates, and the coordinates themselves, returns the
`affected_policies` id list of the single `OutageDetected` publish attempt
made for this outage — or `none` when no event is published.  Mirrors the
source: an empty zip-match list `continue`s before the radius search is
ever performed, and the radius search runs only when both coordinates are
truthy. -/
def outage_monitor_process_outage (zipPolicyIds nearbyPolicyIds : List String)
    (latitude longitude : Option ℚ) : Option (List String) :=
  if zipPolicyIds.isEmpty then none
  else
    let affected :=
      if pyTruthyNum latitude && pyTruthyNum longitude then
        dedupIds (zipPolicyIds ++ nearbyPolicyIds)
      else zipPolicyIds
    some affected

/-! ## Payout Processor guards (`functions/PayoutProcessor/__init__.py`) -/

/-- The fields of a `claim.approved` event the Payout Processor reads. -/
structure ClaimApprovedEvent where
  claim_id : Option String := none
  policy_id : Option String := none
  payout_amount : Option ℚ := none
deriving DecidableEq, Repr

/-- External lookups and the Payment Gateway outcome for one
`payout_processor_main` invocation. -/
structure PayoutEnv where
  claim_found : Bool := true
  policy_found : Bool := true
  payment_succeeds : Bool := true
deriving DecidableEq, Repr

/-- The externally visible actions of one Payout Processor invocation. -/
structure PayoutTrace where
  payout_inserted : Bool := false
  gateway_invoked : Bool := false
  payout_completed : Bool := false
  payout_failed : Bool := false
  claim_marked_paid : Bool := false
  payout_event_published : Bool := false
deriving DecidableEq, Repr

/-- `PayoutProcessor.main`, as the action trace it produces.  Guard 1 is
`if not all([claim_id, policy_id, payout_amount]): return` (Python
truthiness: a missing/empty id or a missing/zero amount fails it); guard 2
is `if payout_amount <= 0: return`.  Both log and return before any client
is constructed, so the trace is empty. -/
def payout_processor_main (event : ClaimApprovedEvent) (env : PayoutEnv) : PayoutTrace :=
  if !(pyTruthyStr event.claim_id && pyTruthyStr event.policy_id
      && pyTruthyNum event.payout_amount) then {}
  else if event.payout_amount.getD 0 ≤ 0 then {}
  else if !env.claim_found then {}
  else if !env.policy_found then {}
  else if env.payment_succeeds then
    { payout_inserted := true, gateway_invoked := true, payout_completed := true,
      claim_marked_paid := true, payout_event_published := true }
  else
    { payout_inserted := true, gateway_invoked := true, payout_failed := true }

/-! ## Threshold Evaluator claim write (`functions/ThresholdEvaluator/__init__.py`
with `FabricClient.insert_claim` from `shared/fabric_client.py`) -/

/-- The claim-row keys relevant to the uniqueness invariant. -/
structure ClaimRow where
  claim_id : String
  policy_id : String
  outage_event_id : String
deriving DecidableEq, Repr

/-- `FabricClient.insert_claim` — a plain SQL `INSERT INTO claims`:
unconditionally appends the row, with no existence check or key
constraint consulted. -/
def insert_claim (store : List ClaimRow) (c : ClaimRow) : List ClaimRow :=
  store ++ [c]

/-- The claim-persistence step of `ThresholdEvaluator.main` for one
policy: build the claim with `create_claim_id(policy_id, outage_event_id)`
(reading the wall clock `now`) and `insert_claim` it. -/
def threshold_evaluator_claim_write (store : List ClaimRow)
    (policy_id outage_event_id : String) (now : DateTime) : List ClaimRow :=
  insert_claim store
    { claim_id := create_claim_id policy_id outage_event_id now,
      policy_id := policy_id, outage_event_id := outage_event_id }

/-! ## Helper lemmas -/

/-- Every multiplier `calculate_weather_factor` can return is at least 1. -/
theorem calculate_weather_factor_ge_one (w : Option WeatherDict) :
    1 ≤ (calculate_weather_factor w).1 := by
  cases w with
  | none => norm_num [calculate_weather_factor]
  | some w =>
    simp only [calculate_weather_factor]
    split_ifs <;> norm_num

/-! ## Claim theorems -/

/-- C10: for every `OutageEvent` value — any status, any optional
`outage_end`, `duration_minutes` and `last_updated`, any `Location` —
`OutageEvent.from_dict(e.to_dict())` returns `e`. -/
theorem outage_event_from_dict_to_dict (e : OutageEvent) :
    OutageEvent.from_dict e.to_dict = some e := by
  obtain ⟨eid, un, loc, ac, os, oe, dm, st, c, rc, ds, lu⟩ := e
  cases oe <;> cases lu <;>
    simp [OutageEvent.to_dict, OutageEvent.from_dict, fromisoformat_isoformat,
      OutageStatus.ofValue_value, Location.from_dict, Location.to_dict, Option.map]

/-- C1 (failing input): `create_claim_id` is not a function of
`(policy_id, outage_event_id)` — it embeds the wall-clock second and
ignores `event_id` entirely — and the claim write is a plain `INSERT`, so
two Threshold Evaluator invocations for the same
`(policy_id, outage_event_id)` pair one second apart insert two distinct
Claim records for that pair. -/
theorem create_claim_id_duplicate_claims :
    create_claim_id "BI-001" "OUT-1" ⟨2026, 2, 9, 12, 0, 0, 0⟩
      = "CLM-BI-001-20260209120000"
    ∧ create_claim_id "BI-001" "OUT-1" ⟨2026, 2, 9, 12, 0, 1, 0⟩
      = "CLM-BI-001-20260209120001"
    ∧ create_claim_id "BI-001" "OUT-1" ⟨2026, 2, 9, 12, 0, 0, 0⟩
      ≠ create_claim_id "BI-001" "OUT-1" ⟨2026, 2, 9, 12, 0, 1, 0⟩
    ∧ create_claim_id "BI-001" "OUT-A" ⟨2026, 2, 9, 12, 0, 0, 0⟩
      = create_claim_id "BI-001" "OUT-B" ⟨2026, 2, 9, 12, 0, 0, 0⟩
    ∧ ((threshold_evaluator_claim_write
          (threshold_evaluator_claim_write [] "BI-001" "OUT-1" ⟨2026, 2, 9, 12, 0, 0, 0⟩)
          "BI-001" "OUT-1" ⟨2026, 2, 9, 12, 0, 1, 0⟩).filter
        (fun c => c.policy_id = "BI-001" && c.outage_event_id = "OUT-1")).length = 2 := by
  refine ⟨by decide, by decide, by decide, by decide, by decide⟩

/-- C2: for a policy with positive threshold, rate and cap, and an outage
whose duration exceeds the threshold, the rule engine's payout
(`Policy.calculate_payout` with the `calculate_weather_factor` multiplier)
equals `min(((duration - threshold) / 60) * hourly_rate * multiplier,
max_payout)`, and therefore lies in `[0, max_payout]`. -/
theorem calculate_payout_formula_and_bounds (p : Policy) (d : ℚ) (w : Option WeatherDict)
    (ht : 0 < p.threshold_minutes) (hr : 0 < p.hourly_rate) (hm : 0 < p.max_payout)
    (hd : p.threshold_minutes < d) :
    p.calculate_payout d (calculate_weather_factor w).1
      = min ((d - p.threshold_minutes) / 60 * p.hourly_rate * (calculate_weather_factor w).1)
          p.max_payout
    ∧ 0 ≤ p.calculate_payout d (calculate_weather_factor w).1
    ∧ p.calculate_payout d (calculate_weather_factor w).1 ≤ p.max_payout := by
  have hw : 1 ≤ (calculate_weather_factor w).1 := calculate_weather_factor_ge_one w
  have hnle : ¬ d ≤ p.threshold_minutes := not_le.mpr hd
  have heq : p.calculate_payout d (calculate_weather_factor w).1
      = min ((d - p.threshold_minutes) / 60 * p.hourly_rate * (calculate_weather_factor w).1)
        p.max_payout := by
    simp [Policy.calculate_payout, hnle]
  refine ⟨heq, ?_, ?_⟩
  · rw [heq]
    apply le_min
    · apply mul_nonneg
      apply mul_nonneg
      · apply div_nonneg (by linarith) (by norm_num)
      · linarith
      · linarith
    · linarith
  · rw [heq]
    exact min_le_right _ _

/-- Witness for C2 at the spec's own end-to-end scenario
(threshold 120 min, rate 500, cap 10000, duration 187 min, no weather). -/
theorem calculate_payout_formula_and_bounds_witness :
    Policy.calculate_payout ⟨120, 500, 10000⟩ 187 (calculate_weather_factor none).1
      = min ((187 - 120) / 60 * 500 * (calculate_weather_factor none).1) 10000
    ∧ 0 ≤ Policy.calculate_payout ⟨120, 500, 10000⟩ 187 (calculate_weather_factor none).1
    ∧ Policy.calculate_payout ⟨120, 500, 10000⟩ 187 (calculate_weather_factor none).1 ≤ 10000 :=
  calculate_payout_formula_and_bounds ⟨120, 500, 10000⟩ 187 none
    (by norm_num) (by norm_num) (by norm_num) (by norm_num)

/-- C3 (counterexample): the claim fails as stated.  (a) In the notebook
rule engine a planned-maintenance outage whose duration does not exceed
the threshold is denied through the threshold branch with an empty
`fraud_signals` list — the `"planned_maintenance_not_covered"` flag is
absent.  (b) The Azure Function fallback engine has no planned-maintenance
rule at all: a planned-maintenance outage over threshold is approved. -/
theorem planned_maintenance_counterexample :
    (rule_based_validation ⟨120, 500, 10000⟩ ⟨60, some "planned_maintenance", 0⟩ none).decision
      = "denied"
    ∧ (rule_based_validation ⟨120, 500, 10000⟩
        ⟨60, some "planned_maintenance", 0⟩ none).fraud_signals = []
    ∧ (fallback_validation ⟨120, 500, 10000⟩ ⟨some 300, some "planned_maintenance"⟩ none 0).decision
      = "approve"
    ∧ (fallback_validation ⟨120, 500, 10000⟩
        ⟨some 300, some "planned_maintenance"⟩ none 0).fraud_signals = [] := by
  refine ⟨?_, ?_, ?_, ?_⟩ <;> norm_num [rule_based_validation, fallback_validation]

/-- C3 (amended): in the notebook rule engine every planned-maintenance
outage is denied, and the `"planned_maintenance_not_covered"` fraud flag
is present exactly when the duration exceeds the threshold; the Azure
Function fallback engine lacks the planned-maintenance rule — an
over-threshold planned-maintenance outage (with a nonzero recorded
duration) is approved with no fraud flags. -/
theorem planned_maintenance_rules (p : Policy) (o : NotebookOutage) (w : Option WeatherDict)
    (fo : FunctionOutage) (fw : Option WeatherDict) (el d : ℚ)
    (h : o.reported_cause = some "planned_maintenance")
    (hfo : fo.duration_minutes = some d) (hd0 : d ≠ 0) (hdt : p.threshold_minutes < d) :
    (rule_based_validation p o w).decision = "denied"
    ∧ ("planned_maintenance_not_covered" ∈ (rule_based_validation p o w).fraud_signals
        ↔ p.threshold_minutes < o.duration_minutes)
    ∧ (fallback_validation p fo fw el).decision = "approve"
    ∧ (fallback_validation p fo fw el).fraud_signals = [] := by
  have hfb : (fallback_validation p fo fw el).decision = "approve"
      ∧ (fallback_validation p fo fw el).fraud_signals = [] := by
    have : ¬ d ≤ p.threshold_minutes := not_le.mpr hdt
    simp [fallback_validation, hfo, if_neg hd0, if_neg this]
  by_cases hex : o.duration_minutes - p.threshold_minutes ≤ 0
  · have hnd : ¬ p.threshold_minutes < o.duration_minutes := by
      intro hlt; linarith
    refine ⟨?_, ?_, hfb.1, hfb.2⟩
    · simp [rule_based_validation, hex]
    · simp [rule_based_validation, hex, hnd]
  · have hd : p.threshold_minutes < o.duration_minutes := by
      by_contra hc
      exact hex (by linarith [not_lt.mp hc])
    refine ⟨?_, ?_, hfb.1, hfb.2⟩
    · simp [rule_based_validation, hex, h]
    · simp [rule_based_validation, hex, h, hd]

/-- Witness for C3 (amended): an over-threshold planned-maintenance
outage is denied and flagged by the notebook engine, yet approved by the
fallback engine. -/
theorem planned_maintenance_rules_witness :
    (rule_based_validation ⟨120, 500, 10000⟩ ⟨187, some "planned_maintenance", 0⟩ none).decision
      = "denied"
    ∧ ("planned_maintenance_not_covered"
        ∈ (rule_based_validation ⟨120, 500, 10000⟩
            ⟨187, some "planned_maintenance", 0⟩ none).fraud_signals
        ↔ (120 : ℚ) < 187)
    ∧ (fallback_validation ⟨120, 500, 10000⟩ ⟨some 300, some "planned_maintenance"⟩ none 0).decision
      = "approve"
    ∧ (fallback_validation ⟨120, 500, 10000⟩
        ⟨some 300, some "planned_maintenance"⟩ none 0).fraud_signals = [] :=
  planned_maintenance_rules ⟨120, 500, 10000⟩ ⟨187, some "planned_maintenance", 0⟩ none
    ⟨some 300, some "planned_maintenance"⟩ none 0 300
    rfl rfl (by norm_num) (by norm_num)

/-- C4 (counterexample): when no weather data is available,
`calculate_weather_factor` returns multiplier 1.0 with the label
`"unknown"`, not `"low"` as claimed. -/
theorem calculate_weather_factor_none_counterexample :
    calculate_weather_factor none = (1, "unknown")
    ∧ (calculate_weather_factor none).2 ≠ "low" := by
  constructor
  · rfl
  · decide

/-- C4 (amended): with `wind = max(wind_speed, wind_gust)`, the
notebook's severity mapping is: 1.5/"severe" iff the alert flag is set and
(the alert type contains "Severe" or "Hurricane", or wind > 55); otherwise
1.2/"high" iff the alert flag is set or wind > 40; otherwise 1.1/"medium"
iff wind > 25; otherwise 1.0/"low".  When no weather data is available the
multiplier is 1.0 but the label is "unknown".  The concrete instance
wind 48 / gust 62 / alert set / type containing "Severe" yields
(1.5, "severe"). -/
theorem calculate_weather_factor_mapping (w : WeatherDict) :
    (calculate_weather_factor (some w) = (1.5, "severe")
      ↔ (w.severe_weather_alert = true
          ∧ (pyIn "Severe" (w.alert_type.getD "") = true
             ∨ pyIn "Hurricane" (w.alert_type.getD "") = true
             ∨ 55 < max (w.wind_speed_mph.getD 0) (w.wind_gust_mph.getD 0))))
    ∧ (calculate_weather_factor (some w) = (1.2, "high")
      ↔ (¬ (w.severe_weather_alert = true
            ∧ (pyIn "Severe" (w.alert_type.getD "") = true
               ∨ pyIn "Hurricane" (w.alert_type.getD "") = true
               ∨ 55 < max (w.wind_speed_mph.getD 0) (w.wind_gust_mph.getD 0)))
          ∧ (w.severe_weather_alert = true
             ∨ 40 < max (w.wind_speed_mph.getD 0) (w.wind_gust_mph.getD 0))))
    ∧ (calculate_weather_factor (some w) = (1.1, "medium")
      ↔ (¬ (w.severe_weather_alert = true
            ∧ (pyIn "Severe" (w.alert_type.getD "") = true
               ∨ pyIn "Hurricane" (w.alert_type.getD "") = true
               ∨ 55 < max (w.wind_speed_mph.getD 0) (w.wind_gust_mph.getD 0)))
          ∧ ¬ (w.severe_weather_alert = true
               ∨ 40 < max (w.wind_speed_mph.getD 0) (w.wind_gust_mph.getD 0))
          ∧ 25 < max (w.wind_speed_mph.getD 0) (w.wind_gust_mph.getD 0)))
    ∧ (calculate_weather_factor (some w) = (1, "low")
      ↔ (¬ (w.severe_weather_alert = true
            ∧ (pyIn "Severe" (w.alert_type.getD "") = true
               ∨ pyIn "Hurricane" (w.alert_type.getD "") = true
               ∨ 55 < max (w.wind_speed_mph.getD 0) (w.wind_gust_mph.getD 0)))
          ∧ ¬ (w.severe_weather_alert = true
               ∨ 40 < max (w.wind_speed_mph.getD 0) (w.wind_gust_mph.getD 0))
          ∧ ¬ 25 < max (w.wind_speed_mph.getD 0) (w.wind_gust_mph.getD 0)))
    ∧ calculate_weather_factor none = (1, "unknown")
    ∧ calculate_weather_factor
        (some ⟨some 48, some 62, true, some "Severe Thunderstorm Warning"⟩) = (1.5, "severe") := by
  have hinst : calculate_weather_factor
      (some ⟨some 48, some 62, true, some "Severe Thunderstorm Warning"⟩) = (1.5, "severe") := by
    norm_num [calculate_weather_factor, pyIn]
  refine ⟨?_, ?_, ?_, ?_, rfl, hinst⟩ <;>
  · simp only [calculate_weather_factor]
    split_ifs with h1 h2 h3 <;> simp_all [Prod.mk.injEq]

/-- C5 (counterexample): in the Azure Function fallback engine a recorded
`duration_minutes` of 0 is falsy, so the duration is re-estimated from
`outage_start`; with 300 elapsed minutes an outage whose recorded duration
(0) is below the 120-minute threshold is approved with a positive payout
instead of the claimed deny/0/0.95. -/
theorem threshold_deny_counterexample :
    (0 : ℚ) ≤ (⟨120, 500, 10000⟩ : Policy).threshold_minutes
    ∧ fallback_validation ⟨120, 500, 10000⟩ ⟨some 0, none⟩ none 300
      = ⟨"approve", 0.85, 1500, "medium", 1, []⟩ := by
  constructor
  · norm_num
  · norm_num [fallback_validation]

/-- C5 (amended): an outage whose engine-visible duration does not exceed
the policy threshold is denied with payout 0 and confidence 0.95 — in the
notebook engine for every recorded duration, and in the Azure fallback
engine for every nonzero recorded duration (a recorded 0 is treated as
missing and the duration is re-estimated from `outage_start`). -/
theorem threshold_not_exceeded_denied (p : Policy) (o : NotebookOutage)
    (w : Option WeatherDict) (fo : FunctionOutage) (fw : Option WeatherDict)
    (el d : ℚ)
    (h : o.duration_minutes ≤ p.threshold_minutes)
    (hfo : fo.duration_minutes = some d) (hd0 : d ≠ 0)
    (hd : d ≤ p.threshold_minutes) :
    rule_based_validation p o w = ⟨"denied", 0.95, 0, "none", 1, []⟩
    ∧ fallback_validation p fo fw el = ⟨"deny", 0.95, 0, "low", 1, []⟩ := by
  constructor
  · have hex : o.duration_minutes - p.threshold_minutes ≤ 0 := by linarith
    simp [rule_based_validation, hex]
  · simp [fallback_validation, hfo, if_neg hd0, if_pos hd]

/-- Witness for C5 (amended): threshold 120 min, duration 90 min. -/
theorem threshold_not_exceeded_denied_witness :
    rule_based_validation ⟨120, 500, 10000⟩ ⟨90, none, 0⟩ none
      = ⟨"denied", 0.95, 0, "none", 1, []⟩
    ∧ fallback_validation ⟨120, 500, 10000⟩ ⟨some 90, none⟩ none 0
      = ⟨"deny", 0.95, 0, "low", 1, []⟩ :=
  threshold_not_exceeded_denied ⟨120, 500, 10000⟩ ⟨90, none, 0⟩ none
    ⟨some 90, none⟩ none 0 90 (by norm_num) rfl (by norm_num) (by norm_num)

/-- C6: whenever the AI Advisor path fails — the SDK is unavailable, the
endpoint or key is unset (or empty), or the chat call / response parse
raises — both validation entry points return exactly the deterministic
rule engine's result for the same input.  Both wrapper functions are total
Lean functions into `ValidationResult`, so no exception reaches the
caller. -/
theorem advisor_failure_falls_back (env : AdvisorEnv) (p : Policy)
    (o : NotebookOutage) (w : Option WeatherDict)
    (fp : Policy) (fo : FunctionOutage) (fw : Option WeatherDict) (el : ℚ) (e : String)
    (hfail : env.sdkAvailable = false
      ∨ pyTruthyStr env.foundry_endpoint = false
      ∨ pyTruthyStr env.foundry_api_key = false
      ∨ ∃ msg, env.callOutcome = .error msg) :
    foundry_agent_validation env p o w = rule_based_validation p o w
    ∧ call_foundry_agent (.error e) fp fo fw el = fallback_validation fp fo fw el := by
  refine ⟨?_, rfl⟩
  rcases hfail with h | h | h | ⟨msg, h⟩ <;>
    simp [foundry_agent_validation, h]

/-- Witness for C6: no SDK, no configuration, and a timed-out call all
collapse to the rule engine on a concrete input. -/
theorem advisor_failure_falls_back_witness :
    foundry_agent_validation ⟨false, none, none, .error "timeout"⟩
        ⟨120, 500, 10000⟩ ⟨187, none, 0⟩ none
      = rule_based_validation ⟨120, 500, 10000⟩ ⟨187, none, 0⟩ none
    ∧ call_foundry_agent (.error "timeout") ⟨120, 500, 10000⟩ ⟨some 187, none⟩ none 0
      = fallback_validation ⟨120, 500, 10000⟩ ⟨some 187, none⟩ none 0 :=
  advisor_failure_falls_back ⟨false, none, none, .error "timeout"⟩
    ⟨120, 500, 10000⟩ ⟨187, none, 0⟩ none
    ⟨120, 500, 10000⟩ ⟨some 187, none⟩ none 0 "timeout" (Or.inl rfl)

/-- C7 (counterexample): the shared Azure Functions Event Grid client
writes no audit record at all — a successful (or failed) publish attempt
appends zero records, not the claimed exactly one; its failures are only
printed and reported through the returned boolean. -/
theorem shared_publish_no_audit_counterexample :
    (EventGridClient.publish_event (.ok ())).2 = []
    ∧ (EventGridClient.publish_event (.ok ())).2.length ≠ 1
    ∧ (EventGridClient.publish_event (.error "HTTP 500")).2 = []
    ∧ (EventGridClient.publish_event (.error "HTTP 500")).1 = false := by
  refine ⟨rfl, by decide, rfl, rfl⟩

/-- C7 (amended): publish calls never raise — both clients return a
boolean (`true` exactly on success).  The notebook client appends exactly
one audit record per attempt, `published` on success and `failed` with the
error text on failure; the shared Azure Functions client appends no audit
record at all. -/
theorem publish_event_audit (o : Except String Unit) (st : NotebookEventGridClient.State)
    (et sub ds eid etime e : String) :
    (EventGridClient.publish_event o).2 = []
    ∧ (EventGridClient.publish_event (.ok ())).1 = true
    ∧ (EventGridClient.publish_event (.error e)).1 = false
    ∧ (NotebookEventGridClient.publish_event st et sub ds eid etime o).2.audit_log.length
      = st.audit_log.length + 1
    ∧ NotebookEventGridClient.publish_event st et sub ds eid etime (.ok ())
      = (true, ⟨st.event_counter + 1, st.audit_log
          ++ [⟨st.event_counter + 1, eid, et, sub, etime, ds.take 500, "published", none⟩]⟩)
    ∧ NotebookEventGridClient.publish_event st et sub ds eid etime (.error e)
      = (false, ⟨st.event_counter + 1, st.audit_log
          ++ [⟨st.event_counter + 1, eid, et, sub, etime, ds.take 500, "failed", some e⟩]⟩) := by
  refine ⟨?_, rfl, rfl, ?_, ?_, ?_⟩
  · cases o <;> rfl
  · cases o <;> simp [NotebookEventGridClient.publish_event]
  · simp [NotebookEventGridClient.publish_event]
  · simp [NotebookEventGridClient.publish_event]

/-- C8 (counterexample): an outage with no exact zip-code match but one
policy inside the 10-mile radius should, per the claim, yield an event
carrying that policy — but the source `continue`s on the empty zip-match
list before the radius search runs, so no event is published. -/
theorem outage_monitor_radius_only_counterexample :
    outage_monitor_process_outage [] ["POL-NEAR"] (some 40) (some (-75)) = none
    ∧ dedupIds ([] ++ ["POL-NEAR"]) = ["POL-NEAR"]
    ∧ (["POL-NEAR"] : List String) ≠ [] := by
  refine ⟨rfl, rfl, by decide⟩

/-- C8 (amended): a publish attempt is made for an outage iff its
zip-exact match list is non-empty; when it is and both coordinates are
truthy the event carries the dedup-by-policy-id union of the zip matches
and the radius matches, and when a coordinate is missing (or zero) it
carries the zip matches alone — radius-only matches never trigger an
event. -/
theorem outage_monitor_affected_policies (zips nears : List String)
    (lat lng : Option ℚ) (hz : zips ≠ []) :
    (outage_monitor_process_outage zips nears lat lng = none ↔ zips = [])
    ∧ ((pyTruthyNum lat && pyTruthyNum lng) = true →
        outage_monitor_process_outage zips nears lat lng = some (dedupIds (zips ++ nears)))
    ∧ ((pyTruthyNum lat && pyTruthyNum lng) = false →
        outage_monitor_process_outage zips nears lat lng = some zips) := by
  have hz' : ¬ zips.isEmpty := by
    cases zips with
    | nil => exact absurd rfl hz
    | cons a l => simp [List.isEmpty]
  refine ⟨?_, ?_, ?_⟩
  · simp [outage_monitor_process_outage, hz', hz]
  · intro hco
    simp [outage_monitor_process_outage, hz', hco]
  · intro hco
    simp [outage_monitor_process_outage, hz', hco]

/-- Witness for C8 (amended): one zip match, one radius match sharing an
id with the zip match, truthy coordinates. -/
theorem outage_monitor_affected_policies_witness :
    (outage_monitor_process_outage ["BI-001", "BI-002"] ["BI-002", "BI-003"]
        (some 40) (some (-75)) = none ↔ (["BI-001", "BI-002"] : List String) = [])
    ∧ ((pyTruthyNum (some 40) && pyTruthyNum (some (-75))) = true →
        outage_monitor_process_outage ["BI-001", "BI-002"] ["BI-002", "BI-003"]
          (some 40) (some (-75))
          = some (dedupIds (["BI-001", "BI-002"] ++ ["BI-002", "BI-003"])))
    ∧ ((pyTruthyNum (some 40) && pyTruthyNum (some (-75))) = false →
        outage_monitor_process_outage ["BI-001", "BI-002"] ["BI-002", "BI-003"]
          (some 40) (some (-75)) = some ["BI-001", "BI-002"]) :=
  outage_monitor_affected_policies ["BI-001", "BI-002"] ["BI-002", "BI-003"]
    (some 40) (some (-75)) (by decide)

/-- C9: a `ClaimApproved` event with a missing claim id, policy id or
payout amount, or a non-positive payout amount, makes the Payout
Processor log and return before any client is constructed: no payout row
is inserted, the Payment Gateway is never invoked, no claim update or
event publish happens, and nothing is raised (the model is a total
function returning the empty action trace). -/
theorem payout_processor_guards (ev : ClaimApprovedEvent) (env : PayoutEnv)
    (h : ev.claim_id = none ∨ ev.policy_id = none ∨ ev.payout_amount = none
      ∨ ∃ x, ev.payout_amount = some x ∧ x ≤ 0) :
    payout_processor_main ev env = {} := by
  rcases h with h | h | h | ⟨x, hx, hx0⟩
  · simp [payout_processor_main, h, pyTruthyStr]
  · simp [payout_processor_main, h, pyTruthyStr]
  · simp [payout_processor_main, h, pyTruthyNum]
  · by_cases hz : x = 0
    · subst hz
      simp [payout_processor_main, hx, pyTruthyNum]
    · have : pyTruthyNum ev.payout_amount = true := by simp [pyTruthyNum, hx, hz]
      simp [payout_processor_main, hx, hx0, this]

/-- Witness for C9: a negative payout amount yields the empty trace. -/
theorem payout_processor_guards_witness :
    payout_processor_main ⟨some "CLM-1", some "BI-001", some (-50)⟩ {} = {} :=
  payout_processor_guards ⟨some "CLM-1", some "BI-001", some (-50)⟩ {}
    (Or.inr (Or.inr (Or.inr ⟨-50, rfl, by norm_num⟩)))
